import Mathlib

/-!
# Verification of the SlideLab conversion orchestration engine

A shallow embedding, in Lean 4, of the conversion core of the SlideLab
repository (`src/electron/main.ts` and `src/electron/utils/hash.ts`):

* `hashPath` — SHA-256 of the UTF-8 bytes of a path, hex-encoded, first
  16 characters (`src/electron/utils/hash.ts`);
* the deterministic output-path computations of the Transform Stage
  (`convertNotebookToMarkdown`) and the Render Stage (`convertMarkdown`);
* `runCommand` — the child-process runner with bounded output capture,
  optional timeout, and promise settlement — modelled as an event machine;
* `ensureVenv` — idempotent environment provisioning with marker files;
* `convertNotebookPipeline` — the per-path conversion lock coordinator;
* `scheduleMarpConversion` / `scheduleNotebookConversion` — the per-path
  debounce timers of the watch scheduler, and their fire callbacks.

Machine integers are `Nat` with explicit `% 2 ^ 32` where JavaScript /
SHA-256 word arithmetic wraps.  Fallible code returns `Except`.  Event-loop
concurrency (promise settlement, timers) is modelled as explicit state
passing over event lists.
-/

/-! ## SHA-256 (`crypto.createHash("sha256")`) over UTF-8 bytes

`hashPath` in `src/electron/utils/hash.ts` is

  `crypto.createHash("sha256").update(value).digest("hex").slice(0, 16)`

Node's `update(value)` with a string encodes it as UTF-8.  We embed the
full FIPS 180-4 SHA-256: padding, message schedule, compression, and the
lowercase hexadecimal digest. -/

namespace SlideLab

/-- UTF-8 encoding of a single Unicode code point, as a list of byte
values (what Node's `Buffer.from(value, "utf8")` emits per character). -/
def utf8EncodeCodepoint (c : Nat) : List Nat :=
  if c < 0x80 then [c]
  else if c < 0x800 then
    [0xC0 + c / 64, 0x80 + c % 64]
  else if c < 0x10000 then
    [0xE0 + c / 4096, 0x80 + c / 64 % 64, 0x80 + c % 64]
  else
    [0xF0 + c / 262144, 0x80 + c / 4096 % 64, 0x80 + c / 64 % 64,
      0x80 + c % 64]

/-- The UTF-8 bytes of a string. -/
def utf8Bytes (s : String) : List Nat :=
  s.data.flatMap (fun ch => utf8EncodeCodepoint ch.toNat)

/-- 32-bit word arithmetic: everything is reduced modulo `2 ^ 32`. -/
def w32 (n : Nat) : Nat := n % 4294967296

/-- Right rotation of a 32-bit word by `r` bits. -/
def rotr32 (r x : Nat) : Nat :=
  w32 (x / 2 ^ r + x % 2 ^ r * 2 ^ (32 - r))

/-- Bitwise choice: for each bit, `x ? y : z`. -/
def ch32 (x y z : Nat) : Nat := Nat.xor (Nat.land x y) (Nat.land (2 ^ 32 - 1 - w32 x) z)

/-- Bitwise majority of three words. -/
def maj32 (x y z : Nat) : Nat :=
  Nat.xor (Nat.xor (Nat.land x y) (Nat.land x z)) (Nat.land y z)

/-- SHA-256 big sigma 0. -/
def bsig0 (x : Nat) : Nat := Nat.xor (Nat.xor (rotr32 2 x) (rotr32 13 x)) (rotr32 22 x)

/-- SHA-256 big sigma 1. -/
def bsig1 (x : Nat) : Nat := Nat.xor (Nat.xor (rotr32 6 x) (rotr32 11 x)) (rotr32 25 x)

/-- SHA-256 small sigma 0. -/
def ssig0 (x : Nat) : Nat :=
  Nat.xor (Nat.xor (rotr32 7 x) (rotr32 18 x)) (x / 2 ^ 3)

/-- SHA-256 small sigma 1. -/
def ssig1 (x : Nat) : Nat :=
  Nat.xor (Nat.xor (rotr32 17 x) (rotr32 19 x)) (x / 2 ^ 10)

/-- The 64 SHA-256 round constants (FIPS 180-4, in decimal). -/
def sha256K : List Nat :=
  [1116352408, 1899447441, 3049323471, 3921009573, 961987163,
   1508970993, 2453635748, 2870763221, 3624381080, 310598401,
   607225278, 1426881987, 1925078388, 2162078206, 2614888103,
   3248222580, 3835390401, 4022224774, 264347078, 604807628,
   770255983, 1249150122, 1555081692, 1996064986, 2554220882,
   2821834349, 2952996808, 3210313671, 3336571891, 3584528711,
   113926993, 338241895, 666307205, 773529912, 1294757372,
   1396182291, 1695183700, 1986661051, 2177026350, 2456956037,
   2730485921, 2820302411, 3259730800, 3345764771, 3516065817,
   3600352804, 4094571909, 275423344, 430227734, 506948616,
   659060556, 883997877, 958139571, 1322822218, 1537002063,
   1747873779, 1955562222, 2024104815, 2227730452, 2361852424,
   2428436474, 2756734187, 3204031479, 3329325298]

/-- Working state of the compression function: the eight 32-bit words. -/
structure Sha256State where
  a : Nat
  b : Nat
  c : Nat
  d : Nat
  e : Nat
  f : Nat
  g : Nat
  h : Nat
deriving Repr, DecidableEq

/-- The initial hash value H(0) (FIPS 180-4, in decimal). -/
def sha256H0 : Sha256State :=
  ⟨1779033703, 3144134277, 1013904242, 2773480762,
   1359893119, 2600822924, 528734635, 1541459225⟩

/-- SHA-256 message padding: append `0x80`, zero bytes to 56 mod 64, then
the bit length as 8 big-endian bytes. -/
def sha256Pad (msg : List Nat) : List Nat :=
  let len := msg.length
  let zeroCount := (55 + 64 - len % 64) % 64
  let bitLen := len * 8
  msg ++ [0x80] ++ List.replicate zeroCount 0 ++
    [bitLen / 2 ^ 56 % 256, bitLen / 2 ^ 48 % 256, bitLen / 2 ^ 40 % 256,
     bitLen / 2 ^ 32 % 256, bitLen / 2 ^ 24 % 256, bitLen / 2 ^ 16 % 256,
     bitLen / 2 ^ 8 % 256, bitLen % 256]

/-- Split a byte list into 64-byte chunks (fuel-driven so that the kernel
can evaluate it; the fuel `bytes.length` always suffices). -/
def chunks64Go : Nat → List Nat → List (List Nat)
  | 0, _ => []
  | _, [] => []
  | fuel + 1, b :: rest =>
    (b :: rest).take 64 :: chunks64Go fuel ((b :: rest).drop 64)

/-- Split a byte list into 64-byte chunks. -/
def chunks64 (bytes : List Nat) : List (List Nat) :=
  chunks64Go bytes.length bytes

/-- The sixteen big-endian 32-bit words of a 64-byte chunk. -/
def chunkWords (chunk : List Nat) : List Nat :=
  (List.range 16).map fun i =>
    chunk.getD (4 * i) 0 * 2 ^ 24 + chunk.getD (4 * i + 1) 0 * 2 ^ 16 +
      chunk.getD (4 * i + 2) 0 * 2 ^ 8 + chunk.getD (4 * i + 3) 0

/-- The full 64-entry SHA-256 message schedule `W`, built iteratively:
entry `t` (for `16 ≤ t < 64`) is
`σ1 W[t-2] + W[t-7] + σ0 W[t-15] + W[t-16]  (mod 2^32)`. -/
def sha256WList (ws16 : List Nat) : List Nat :=
  (List.range 48).foldl
    (fun acc _ =>
      acc ++ [w32 (ssig1 (acc.getD (acc.length - 2) 0) +
        acc.getD (acc.length - 7) 0 + ssig0 (acc.getD (acc.length - 15) 0) +
        acc.getD (acc.length - 16) 0)])
    ws16

/-- One round of the SHA-256 compression function. -/
def sha256Round (ws : List Nat) (st : Sha256State) (t : Nat) : Sha256State :=
  let t1 := w32 (st.h + bsig1 st.e + ch32 st.e st.f st.g +
    sha256K.getD t 0 + ws.getD t 0)
  let t2 := w32 (bsig0 st.a + maj32 st.a st.b st.c)
  ⟨w32 (t1 + t2), st.a, st.b, st.c, w32 (st.d + t1), st.e, st.f, st.g⟩

/-- Process a single 64-byte chunk: 64 rounds then the feed-forward add. -/
def sha256Chunk (st : Sha256State) (chunk : List Nat) : Sha256State :=
  let ws := sha256WList (chunkWords chunk)
  let r := (List.range 64).foldl (sha256Round ws) st
  ⟨w32 (st.a + r.a), w32 (st.b + r.b), w32 (st.c + r.c), w32 (st.d + r.d),
   w32 (st.e + r.e), w32 (st.f + r.f), w32 (st.g + r.g), w32 (st.h + r.h)⟩

/-- SHA-256 of a byte list, as the final eight-word state. -/
def sha256Words (msg : List Nat) : Sha256State :=
  (chunks64 (sha256Pad msg)).foldl sha256Chunk sha256H0

/-- One lowercase hexadecimal digit. -/
def hexDigit (n : Nat) : Char := Nat.digitChar (n % 16)

/-- A 32-bit word as exactly eight lowercase hex characters (big-endian). -/
def wordHex (x : Nat) : List Char :=
  (List.range 8).map fun i => hexDigit (x / 2 ^ (28 - 4 * i))

/-- The 64-character lowercase hex digest (`.digest("hex")`). -/
def sha256Hex (msg : List Nat) : List Char :=
  let st := sha256Words msg
  wordHex st.a ++ wordHex st.b ++ wordHex st.c ++ wordHex st.d ++
    wordHex st.e ++ wordHex st.f ++ wordHex st.g ++ wordHex st.h

/-- `hashPath` from `src/electron/utils/hash.ts`:
`crypto.createHash("sha256").update(value).digest("hex").slice(0, 16)`. -/
def hashPath (value : String) : String :=
  String.mk ((sha256Hex (utf8Bytes value)).take 16)

/-- Lowercase hexadecimal characters. -/
def isHexChar (c : Char) : Bool :=
  ('0' ≤ c ∧ c ≤ '9') ∨ ('a' ≤ c ∧ c ≤ 'f')

/-! ## Output paths

`path.join(dir, name)` for a directory and a relative file name — the only
shape the orchestrator uses — is `dir ++ "/" ++ name` (no normalization is
needed for these inputs). -/

/-- Node `path.join` for one directory and one relative file name. -/
def pathJoin (dir name : String) : String := dir ++ "/" ++ name

/-- The Markdown output path computed by the Transform Stage
(`convertNotebookToMarkdown`):
`path.join(marpOutputDir, "notebook-" + hashPath(notebookPath) + ".md")`. -/
def markdownOutputPath (marpOutputDir notebookPath : String) : String :=
  pathJoin marpOutputDir ("notebook-" ++ hashPath notebookPath ++ ".md")

/-- The PDF output path computed by the Render Stage (`convertMarkdown`):
`path.join(marpOutputDir, hashPath(markdownPath) + ".pdf")`. -/
def pdfOutputPath (marpOutputDir markdownPath : String) : String :=
  pathJoin marpOutputDir (hashPath markdownPath ++ ".pdf")

/-- `pathToFileURL(p).toString()` for the absolute paths the stages emit. -/
def fileUrl (p : String) : String := "file://" ++ p

/-! ## Status Channel

`sendStatus(message, level)` posts `{message, level}` on the
`status:update` channel; we record emitted events in order. -/

/-- A status level: `"info" | "success" | "error"`. -/
inductive StatusLevel where
  | info
  | success
  | error
deriving DecidableEq, Repr

/-- One Status Channel event. -/
structure StatusEvent where
  message : String
  level : StatusLevel
deriving DecidableEq, Repr

/-! ## Command Runner (`runCommand`)

`runCommand(command, args, options)` returns a promise.  We model the
handler wiring as an explicit event machine: the state carries the
captured `stdout` / `stderr` buffers, whether the timeout timer is still
live, and the promise settlement (a JavaScript promise settles at most
once; a later `resolve`/`reject` call is a no-op).  Events are the
event-loop callbacks the source installs: `stdout`/`stderr` `data`,
the child `error` event, the timeout expiry, and the child `close`
event.  `settleCount` counts the settle calls that actually took effect,
so "exactly one terminal outcome" is observable. -/

/-- The options object of `runCommand` (the `args`, `cwd` and `env`
members do not influence the control flow modelled here). -/
structure RunCommandOptions where
  timeoutMs : Option Nat
  label : Option String
deriving DecidableEq, Repr

/-- `options.label || command`: JavaScript `||` falls back on `undefined`
and on the empty string. -/
def labelName (options : RunCommandOptions) (command : String) : String :=
  match options.label with
  | some l => if l = "" then command else l
  | none => command

/-- `options.timeoutMs && setTimeout(...)`: a timer is installed only when
`timeoutMs` is present and non-zero (`0` and `undefined` are falsy). -/
def timerInstalled (options : RunCommandOptions) : Bool :=
  match options.timeoutMs with
  | none => false
  | some n => n != 0

/-- How a `runCommand` promise settles, tagged by the rejection site. -/
inductive RCOutcome where
  | resolved
  | rejectedTimeout (msg : String)
  | rejectedSpawnError (msg : String)
  | rejectedExit (code : Option Int) (msg : String)
deriving DecidableEq, Repr

/-- The machine state of one `runCommand` invocation. -/
structure RCState where
  stdout : String
  stderr : String
  timeoutActive : Bool
  settled : Option RCOutcome
  settleCount : Nat
deriving DecidableEq, Repr

/-- The state right after `spawn`: empty buffers, timer installed iff
`timeoutMs` is truthy, promise pending. -/
def runCommandInit (options : RunCommandOptions) : RCState :=
  { stdout := "", stderr := "", timeoutActive := timerInstalled options,
    settled := none, settleCount := 0 }

/-- Promise settlement: the first `resolve`/`reject` wins, later calls
are no-ops. -/
def settle (s : RCState) (o : RCOutcome) : RCState :=
  match s.settled with
  | some _ => s
  | none => { s with settled := some o, settleCount := s.settleCount + 1 }

/-- `if (x.length > 2000) x = x.slice(-2000)`: keep only the most recent
2000 characters of a capture buffer. -/
def keepTail2000 (s : String) : String :=
  if s.length > 2000 then String.mk (s.data.drop (s.length - 2000)) else s

/-- `stderr || stdout`: the diagnostic detail attached to a non-zero-exit
rejection prefers stderr and falls back to stdout. -/
def exitDetail (stderrBuf stdoutBuf : String) : String :=
  if stderrBuf = "" then stdoutBuf else stderrBuf

/-- JavaScript whitespace for `String.prototype.trim()` (the subset that
can occur in the captured process output). -/
def isJsWhitespace (c : Char) : Bool :=
  c = ' ' ∨ c = '\t' ∨ c = '\n' ∨ c = '\r' ∨ c = '\x0b' ∨ c = '\x0c'

/-- JavaScript `detail.trim()`: strip whitespace from both ends. -/
def jsTrim (s : String) : String :=
  String.mk
    (((s.data.dropWhile isJsWhitespace).reverse.dropWhile
      isJsWhitespace).reverse)

/-- The textual exit code (`close` delivers `number | null`). -/
def codeText : Option Int → String
  | some n => toString n
  | none => "null"

/-- The rejection message built by the `close` handler for a non-zero
exit code. -/
def exitMessage (name : String) (code : Option Int) (detail : String) :
    String :=
  name ++ " exited with code " ++ codeText code ++
    (if detail = "" then "" else ": " ++ jsTrim detail)

/-- The event-loop callbacks a `runCommand` invocation can receive. -/
inductive RCEvent where
  | stdoutData (chunk : String)
  | stderrData (chunk : String)
  | errorEvt (message : String)
  | timeoutFire
  | close (code : Option Int)
deriving DecidableEq, Repr

/-- One event-loop step of `runCommand`: exactly the five handlers the
source installs. -/
def runCommandStep (command : String) (options : RunCommandOptions)
    (s : RCState) (e : RCEvent) : RCState :=
  match e with
  | .stdoutData chunk => { s with stdout := keepTail2000 (s.stdout ++ chunk) }
  | .stderrData chunk => { s with stderr := keepTail2000 (s.stderr ++ chunk) }
  | .errorEvt m => settle s (.rejectedSpawnError m)
  | .timeoutFire =>
    if s.timeoutActive then
      settle { s with timeoutActive := false }
        (.rejectedTimeout (labelName options command ++ " timed out"))
    else s
  | .close code =>
    let s1 := { s with timeoutActive := false }
    if code = some 0 then settle s1 .resolved
    else
      settle s1 (.rejectedExit code
        (exitMessage (labelName options command) code
          (exitDetail s1.stderr s1.stdout)))

/-- Run one `runCommand` invocation over a list of event-loop callbacks. -/
def runCommandRun (command : String) (options : RunCommandOptions)
    (events : List RCEvent) : RCState :=
  events.foldl (runCommandStep command options) (runCommandInit options)

/-! ## Environment Provisioner (`ensureVenv`)

The relevant filesystem facts are the two marker files inside the
per-notebook venv directory, and the external effects are the two
commands (`python -m venv` and `pip install jupyterlab`), whose success
or failure is an environment parameter. -/

/-- The marker files `ensureVenv` consults for one venv directory. -/
structure VenvFs where
  pyvenvCfg : Bool
  jupyterInstalled : Bool
deriving DecidableEq, Repr

/-- Outcomes of the external commands `ensureVenv` may run. -/
structure VenvEnv where
  venvCreateOk : Bool
  venvCreateErr : String
  pipInstallOk : Bool
  pipInstallErr : String
deriving DecidableEq, Repr

/-- The external commands `ensureVenv` can invoke. -/
inductive VenvCommand where
  | createVenv
  | pipInstallJupyterlab
deriving DecidableEq, Repr

/-- Result of one `ensureVenv` call: the returned paths (or the thrown
error), the filesystem afterwards, the commands run, and the status
events emitted. -/
structure EnsureVenvOut where
  result : Except String (String × String)
  fs : VenvFs
  commands : List VenvCommand
  statuses : List StatusEvent
deriving Repr

/-- The install phase of `ensureVenv`: if the `.jupyterlab-installed`
marker is absent, announce and run `pip install jupyterlab`, and write
the marker only after that command succeeded. -/
def ensureVenvInstallPhase (env : VenvEnv) (venvDir pipPath : String)
    (fs1 : VenvFs) (cmds : List VenvCommand) : EnsureVenvOut :=
  if fs1.jupyterInstalled then
    { result := .ok (venvDir, pipPath), fs := fs1, commands := cmds,
      statuses := [] }
  else if env.pipInstallOk then
    { result := .ok (venvDir, pipPath),
      fs := { fs1 with jupyterInstalled := true },
      commands := cmds ++ [.pipInstallJupyterlab],
      statuses := [⟨"Installing JupyterLab...", .info⟩] }
  else
    { result := .error env.pipInstallErr, fs := fs1,
      commands := cmds ++ [.pipInstallJupyterlab],
      statuses := [⟨"Installing JupyterLab...", .info⟩] }

/-- `ensureVenv(notebookPath)`: skip venv creation when `pyvenv.cfg`
exists; then the install phase; a thrown `runCommand` rejection aborts
the call. -/
def ensureVenv (env : VenvEnv) (venvRoot notebookPath : String)
    (fs0 : VenvFs) : EnsureVenvOut :=
  let venvDir := pathJoin venvRoot (hashPath notebookPath)
  let pipPath := venvDir ++ "/bin/pip"
  if fs0.pyvenvCfg then
    ensureVenvInstallPhase env venvDir pipPath fs0 []
  else if env.venvCreateOk then
    ensureVenvInstallPhase env venvDir pipPath
      { fs0 with pyvenvCfg := true } [.createVenv]
  else
    { result := .error env.venvCreateErr, fs := fs0,
      commands := [.createVenv], statuses := [] }

/-! ## Transform Stage and Render Stage

`convertNotebookToMarkdown` and `convertMarkdown` (non-mock branches).
The outcome of each external command is an environment parameter; the
deterministic output-path computation and the status traffic are the
modelled behaviour. -/

/-- Environment of the two stages: whether the converter script exists
and how the external commands terminate. -/
structure StageEnv where
  converterScript : String
  converterScriptExists : Bool
  transformCommandOk : Bool
  transformErrorMsg : String
  renderCommandOk : Bool
  renderErrorMsg : String
deriving DecidableEq, Repr

/-- Result of one `convertNotebookToMarkdown` call. -/
structure TransformOut where
  result : Except String String
  statuses : List StatusEvent
  outputPath : String
  commandRan : Bool
deriving Repr

/-- `convertNotebookToMarkdown(notebookPath)`: deterministic output path
`notebook-<hash>.md` under the output directory, a thrown error when the
converter script is missing, then the external transform command. -/
def convertNotebookToMarkdown (env : StageEnv)
    (marpOutputDir notebookPath : String) : TransformOut :=
  let outputPath := markdownOutputPath marpOutputDir notebookPath
  if !env.converterScriptExists then
    { result := .error
        ("convert_to_slides.mjs not found at " ++ env.converterScript),
      statuses := [], outputPath := outputPath, commandRan := false }
  else if env.transformCommandOk then
    { result := .ok outputPath,
      statuses := [⟨"Converting notebook to slides markdown...", .info⟩,
        ⟨"Notebook converted to Markdown.", .success⟩],
      outputPath := outputPath, commandRan := true }
  else
    { result := .error env.transformErrorMsg,
      statuses := [⟨"Converting notebook to slides markdown...", .info⟩],
      outputPath := outputPath, commandRan := true }

/-- Result of one `convertMarkdown` call: the resolved payload or thrown
error, status traffic, the computed PDF output path, and the argument
list passed to the marp renderer. -/
structure RenderOut where
  result : Except String String
  statuses : List StatusEvent
  outputPath : String
  marpArgs : List String
  commandRan : Bool
deriving Repr

/-- `convertMarkdown(markdownPath)`: deterministic output path
`<hash>.pdf` under the output directory, the marp invocation (which
receives the current theme stylesheet path), and a `file://` URL of the
output on success.  `themePath` is the module-level global the source
reads. -/
def convertMarkdown (env : StageEnv) (themePath marpOutputDir : String)
    (markdownPath : String) : RenderOut :=
  let outputPath := pdfOutputPath marpOutputDir markdownPath
  let args := ["--pdf", "--allow-local-files", "--theme", themePath,
    "--browser-timeout", "60", "-o", outputPath, markdownPath]
  if env.renderCommandOk then
    { result := .ok (fileUrl outputPath),
      statuses := [⟨"Rendering Marp PDF...", .info⟩,
        ⟨"Marp PDF ready.", .success⟩],
      outputPath := outputPath, marpArgs := args, commandRan := true }
  else
    { result := .error env.renderErrorMsg,
      statuses := [⟨"Rendering Marp PDF...", .info⟩],
      outputPath := outputPath, marpArgs := args, commandRan := true }

/-! ## Pipeline Coordinator (`convertNotebookPipeline`)

`notebookConversionLocks` is a JavaScript `Map<string, boolean>` read
through `get` (with `undefined`, i.e. absent, falsy): a total function
`String → Bool` with default `false`. -/

/-- The conversion-lock map. -/
def Locks : Type := String → Bool

/-- `notebookConversionLocks.set(p, v)`. -/
def setLock (locks : Locks) (p : String) (v : Bool) : Locks :=
  fun q => if q = p then v else locks q

/-- The payload `convertNotebookPipeline` resolves with. -/
structure PipelinePayload where
  markdownPath : String
  pdfUrl : String
deriving DecidableEq, Repr

/-- Result of one `convertNotebookPipeline` call. `result = .ok none` is
the sentinel `null` ("already in progress"). -/
structure PipelineOut where
  result : Except String (Option PipelinePayload)
  locks : Locks
  statuses : List StatusEvent
  transformRan : Bool
  renderRan : Bool

/-- `convertNotebookPipeline(notebookPath)`: return `null` immediately
when the lock for the path is held; otherwise set the lock, run the
Transform Stage then the Render Stage, and clear the lock in `finally`
on every exit path. -/
def convertNotebookPipeline (env : StageEnv)
    (themePath marpOutputDir : String) (locks : Locks)
    (notebookPath : String) : PipelineOut :=
  if locks notebookPath then
    { result := .ok none, locks := locks, statuses := [],
      transformRan := false, renderRan := false }
  else
    let locks1 := setLock locks notebookPath true
    let locksOut := setLock locks1 notebookPath false
    let startEvt : StatusEvent := ⟨"Starting notebook → PDF pipeline...", .info⟩
    let t := convertNotebookToMarkdown env marpOutputDir notebookPath
    match t.result with
    | .error e =>
      { result := .error e, locks := locksOut,
        statuses := startEvt :: t.statuses,
        transformRan := true, renderRan := false }
    | .ok markdownPath =>
      let r := convertMarkdown env themePath marpOutputDir markdownPath
      match r.result with
      | .error e =>
        { result := .error e, locks := locksOut,
          statuses := startEvt :: (t.statuses ++ r.statuses),
          transformRan := true, renderRan := true }
      | .ok pdfUrl =>
        { result := .ok (some ⟨markdownPath, pdfUrl⟩), locks := locksOut,
          statuses := startEvt :: (t.statuses ++ r.statuses ++
            [⟨"Notebook PDF ready.", .success⟩]),
          transformRan := true, renderRan := true }

/-! ## Watch & Debounce Scheduler

`scheduleMarpConversion` / `scheduleNotebookConversion` and their timer
callbacks.  Timers created by `setTimeout` are modelled explicitly: a
scheduled-but-not-yet-fired-or-cancelled timer is *live*; `clearTimeout`
removes it; the per-path maps (`marpTimers` / `notebookTimers`) hold the
most recently scheduled timer id per path.  The runtime can fire a live
timer only once its delay has elapsed (`fireAt ≤ now`). -/

/-- One `setTimeout` timer: its handle, the watched path whose callback
it runs, and the time it becomes due. -/
structure Timer where
  id : Nat
  path : String
  fireAt : Nat
deriving DecidableEq, Repr

/-- The observable state of one watch-and-debounce subsystem (the marp
one or the notebook one): live timers, the per-path timer map, active
watchers, and the logs its callbacks produce. -/
structure DebounceSystem where
  liveTimers : List Timer
  timerMap : String → Option Nat
  nextId : Nat
  watchers : List String
  rebuilds : List String
  statuses : List StatusEvent
  consoleErrors : List String
  sentUpdates : List String

/-- The state before any watch activity. -/
def emptyDebounce : DebounceSystem :=
  { liveTimers := [], timerMap := fun _ => none, nextId := 0,
    watchers := [], rebuilds := [], statuses := [], consoleErrors := [],
    sentUpdates := [] }

/-- `startMarpWatch` / `startNotebookWatch`: watching an already-watched
path is a no-op; otherwise register the `fs.watch` subscription. -/
def startWatch (p : String) (s : DebounceSystem) : DebounceSystem :=
  if p ∈ s.watchers then s else { s with watchers := s.watchers ++ [p] }

/-- The common body of `scheduleMarpConversion` and
`scheduleNotebookConversion`: `clearTimeout` the timer the map holds for
the path (if any), then `setTimeout` a fresh timer with the given delay
and store its handle in the map. -/
def scheduleConversion (delay : Nat) (p : String) (now : Nat)
    (s : DebounceSystem) : DebounceSystem :=
  let cleared := match s.timerMap p with
    | some tid => s.liveTimers.filter (fun t => t.id ≠ tid)
    | none => s.liveTimers
  { s with
    liveTimers := cleared ++ [⟨s.nextId, p, now + delay⟩],
    timerMap := fun q => if q = p then some s.nextId else s.timerMap q,
    nextId := s.nextId + 1 }

/-- `scheduleMarpConversion(markdownPath)`: 600 ms debounce. -/
def scheduleMarpConversion : String → Nat → DebounceSystem → DebounceSystem :=
  scheduleConversion 600

/-- `scheduleNotebookConversion(notebookPath)`: 800 ms debounce. -/
def scheduleNotebookConversion :
    String → Nat → DebounceSystem → DebounceSystem :=
  scheduleConversion 800

/-- The runtime fires timer `tid` at time `now`: only a live timer whose
delay has elapsed can fire; the callback first deletes the path's map
entry and removes the fired timer from the live set. -/
def fireBookkeeping (tid now : Nat) (s : DebounceSystem) :
    Option (Timer × DebounceSystem) :=
  match s.liveTimers.find? (fun t => t.id = tid) with
  | none => none
  | some t =>
    if t.fireAt ≤ now then
      some (t, { s with
        liveTimers := s.liveTimers.filter (fun u => u.id ≠ tid),
        timerMap := fun q => if q = t.path then none else s.timerMap q })
    else none

/-- The `scheduleMarpConversion` timer callback: delete the map entry,
run `convertMarkdown`, send `marp:updated` on success, and `catch` any
failure with `console.error("Marp conversion failed", error)`. -/
def marpTimerFire (env : StageEnv) (themePath marpOutputDir : String)
    (tid now : Nat) (s : DebounceSystem) : DebounceSystem :=
  match fireBookkeeping tid now s with
  | none => s
  | some (t, s1) =>
    let r := convertMarkdown env themePath marpOutputDir t.path
    match r.result with
    | .ok _ =>
      { s1 with
        rebuilds := s1.rebuilds ++ [t.path],
        statuses := s1.statuses ++ r.statuses,
        sentUpdates := s1.sentUpdates ++ [t.path] }
    | .error e =>
      { s1 with
        rebuilds := s1.rebuilds ++ [t.path],
        statuses := s1.statuses ++ r.statuses,
        consoleErrors := s1.consoleErrors ++
          ["Marp conversion failed: " ++ e] }

/-- The `scheduleNotebookConversion` timer callback: delete the map
entry, run the full `convertNotebookPipeline`, send `marp:updated` when
it resolves with a payload, and `catch` any failure with
`console.error("Notebook conversion failed", error)`. -/
def notebookTimerFire (env : StageEnv) (themePath marpOutputDir : String)
    (tid now : Nat) (s : DebounceSystem) (locks : Locks) :
    DebounceSystem × Locks :=
  match fireBookkeeping tid now s with
  | none => (s, locks)
  | some (t, s1) =>
    let out := convertNotebookPipeline env themePath marpOutputDir locks
      t.path
    match out.result with
    | .ok (some _) =>
      ({ s1 with
        rebuilds := s1.rebuilds ++ [t.path],
        statuses := s1.statuses ++ out.statuses,
        sentUpdates := s1.sentUpdates ++ [t.path] }, out.locks)
    | .ok none =>
      ({ s1 with
        rebuilds := s1.rebuilds ++ [t.path],
        statuses := s1.statuses ++ out.statuses }, out.locks)
    | .error e =>
      ({ s1 with
        rebuilds := s1.rebuilds ++ [t.path],
        statuses := s1.statuses ++ out.statuses,
        consoleErrors := s1.consoleErrors ++
          ["Notebook conversion failed: " ++ e] }, out.locks)

/-- A raw event the watch subsystem reacts to: an `fs.watch` change
notification for a path, or the runtime firing a timer handle. -/
inductive WatchOp where
  | change (p : String) (now : Nat)
  | fire (tid : Nat) (now : Nat)
deriving DecidableEq, Repr

/-- One step of the markdown watch subsystem. -/
def marpWatchStep (env : StageEnv) (themePath marpOutputDir : String)
    (s : DebounceSystem) (op : WatchOp) : DebounceSystem :=
  match op with
  | .change p now => scheduleMarpConversion p now s
  | .fire tid now => marpTimerFire env themePath marpOutputDir tid now s

/-- Run the markdown watch subsystem over a list of raw events. -/
def marpWatchRun (env : StageEnv) (themePath marpOutputDir : String)
    (ops : List WatchOp) (s : DebounceSystem) : DebounceSystem :=
  ops.foldl (marpWatchStep env themePath marpOutputDir) s

/-- One step of the notebook watch subsystem (carries the conversion
locks the pipeline reads and writes). -/
def notebookWatchStep (env : StageEnv) (themePath marpOutputDir : String)
    (sl : DebounceSystem × Locks) (op : WatchOp) :
    DebounceSystem × Locks :=
  match op with
  | .change p now => (scheduleNotebookConversion p now sl.1, sl.2)
  | .fire tid now =>
    notebookTimerFire env themePath marpOutputDir tid now sl.1 sl.2

/-- Run the notebook watch subsystem over a list of raw events. -/
def notebookWatchRun (env : StageEnv) (themePath marpOutputDir : String)
    (ops : List WatchOp) (sl : DebounceSystem × Locks) :
    DebounceSystem × Locks :=
  ops.foldl (notebookWatchStep env themePath marpOutputDir) sl

/-- Is an outcome the timeout rejection? (Used to state that an
invocation can never fail with a timed-out error.) -/
def isTimeoutOutcome : RCOutcome → Bool
  | .rejectedTimeout _ => true
  | _ => false

/-- Coherence invariant of one watch-and-debounce subsystem: live timers
have pairwise distinct handles below `nextId`, the per-path map points at
the live timer of its path, and every map entry is backed by a live
timer. -/
def DebounceInv (s : DebounceSystem) : Prop :=
  (∀ t ∈ s.liveTimers, ∀ u ∈ s.liveTimers, t.id = u.id → t = u)
  ∧ (∀ t ∈ s.liveTimers, t.id < s.nextId)
  ∧ (∀ t ∈ s.liveTimers, s.timerMap t.path = some t.id)
  ∧ (∀ p tid, s.timerMap p = some tid →
      ∃ t ∈ s.liveTimers, t.path = p ∧ t.id = tid)

/-- A concrete watch state: one live timer for `s.md` due at 600 ms, an
active watcher for that path, and empty logs. -/
def sampleWatchState : DebounceSystem :=
  { liveTimers := [⟨0, "s.md", 600⟩],
    timerMap := fun q => if q = "s.md" then some 0 else none,
    nextId := 1, watchers := ["s.md"], rebuilds := [], statuses := [],
    consoleErrors := [], sentUpdates := [] }

/-- A stage environment whose render command fails (marp exits 1). -/
def failingRenderEnv : StageEnv :=
  ⟨"s.mjs", true, true, "te", false, "marp exited with code 1"⟩

/-- The state shape during a single-path burst: exactly one live timer,
for path `p`, with handle `i`, due at `fa`, and `nextId = i + 1`. -/
def SingleTimerShape (p : String) (i fa : Nat) (s : DebounceSystem) :
    Prop :=
  s.liveTimers = [⟨i, p, fa⟩] ∧ s.timerMap p = some i ∧ s.nextId = i + 1

/-! ## Theorems -/

/-- Each 32-bit word renders as exactly eight hex characters. -/
theorem wordHex_length (x : Nat) : (wordHex x).length = 8 := by
  simp [wordHex]

/-- `hexDigit` always produces a lowercase hexadecimal character. -/
theorem isHexChar_hexDigit (n : Nat) : isHexChar (hexDigit n) = true := by
  have h : n % 16 < 16 := Nat.mod_lt _ (by norm_num)
  show isHexChar (Nat.digitChar (n % 16)) = true
  revert h
  generalize n % 16 = m
  intro h
  interval_cases m <;> decide

/-- Every character of a rendered word is hexadecimal. -/
theorem mem_wordHex_isHex {x : Nat} {c : Char} (hc : c ∈ wordHex x) :
    isHexChar c = true := by
  simp only [wordHex, List.mem_map, List.mem_range] at hc
  obtain ⟨i, _, rfl⟩ := hc
  exact isHexChar_hexDigit _

/-- The hex digest is 64 characters long. -/
theorem sha256Hex_length (msg : List Nat) : (sha256Hex msg).length = 64 := by
  simp [sha256Hex, wordHex]

/-- Every character of the hex digest is hexadecimal. -/
theorem mem_sha256Hex_isHex {msg : List Nat} {c : Char}
    (hc : c ∈ sha256Hex msg) : isHexChar c = true := by
  simp only [sha256Hex, List.mem_append] at hc
  rcases hc with ((((((h | h) | h) | h) | h) | h) | h) | h <;>
    exact mem_wordHex_isHex h

/-- C7: for every path `p`, `hashPath p` is deterministic (a pure
function: the same input always yields the same output), and its result
is always exactly 16 lowercase hexadecimal characters — for every input
string, including the empty string. -/
theorem hashPath_deterministic_sixteen_hex (p : String) :
    hashPath p = hashPath p ∧ (hashPath p).length = 16 ∧
      (hashPath p).data.all isHexChar = true := by
  refine ⟨rfl, ?_, ?_⟩
  · show (String.mk ((sha256Hex (utf8Bytes p)).take 16)).length = 16
    show ((sha256Hex (utf8Bytes p)).take 16).length = 16
    rw [List.length_take, sha256Hex_length]
    decide
  · rw [List.all_eq_true]
    intro c hc
    exact mem_sha256Hex_isHex (List.mem_of_mem_take hc)

set_option maxRecDepth 10000 in
/-- The SHA-256 embedding reproduces the FIPS 180-4 / `sha256sum` test
vectors (so `hashPath` is the genuine first-16-hex-characters digest):
`sha256("") = e3b0c442…`, `sha256("abc") = ba7816bf…`. -/
theorem hashPath_test_vectors :
    hashPath "" = "e3b0c44298fc1c14" ∧ hashPath "abc" = "ba7816bf8f01cfea" := by
  constructor <;> decide

/-- The Transform Stage's output path is the same in every branch. -/
theorem convertNotebookToMarkdown_outputPath (env : StageEnv)
    (dir n : String) :
    (convertNotebookToMarkdown env dir n).outputPath =
      markdownOutputPath dir n := by
  unfold convertNotebookToMarkdown
  split
  · rfl
  · split <;> rfl

/-- The Render Stage's output path is the same in every branch. -/
theorem convertMarkdown_outputPath (env : StageEnv) (theme dir m : String) :
    (convertMarkdown env theme dir m).outputPath = pdfOutputPath dir m := by
  unfold convertMarkdown
  split <;> rfl

/-- C3: the Markdown output path computed by the Transform Stage equals
`{outputDir}/notebook-{hash(n)}.md`, the PDF output path computed by the
Render Stage equals `{outputDir}/{hash(m)}.pdf`, and both are pure
deterministic functions of the source path alone: neither the theme path
nor any other environment input affects them, so repeated conversions of
the same input target the same output files. -/
theorem output_paths_content_addressed (env env' : StageEnv)
    (theme theme' dir n m : String) :
    (convertNotebookToMarkdown env dir n).outputPath =
      dir ++ "/notebook-" ++ hashPath n ++ ".md"
    ∧ (convertMarkdown env theme dir m).outputPath =
      dir ++ "/" ++ hashPath m ++ ".pdf"
    ∧ (convertMarkdown env theme dir m).outputPath =
      (convertMarkdown env' theme' dir m).outputPath := by
  have d1 : ("/" : String).data = ['/'] := rfl
  have d2 : ("/notebook-" : String).data = ('/' :: "notebook-".data) := rfl
  refine ⟨?_, ?_, ?_⟩
  · rw [convertNotebookToMarkdown_outputPath]
    show dir ++ "/" ++ ("notebook-" ++ hashPath n ++ ".md") = _
    apply String.ext
    simp [String.data_append, d1, d2]
  · rw [convertMarkdown_outputPath]
    show dir ++ "/" ++ (hashPath m ++ ".pdf") = _
    apply String.ext
    simp [String.data_append]
  · rw [convertMarkdown_outputPath, convertMarkdown_outputPath]

/-- C1: for every notebook path `p`, if `convertNotebookPipeline(p)` is
invoked while the ConversionLock for `p` is held, the invocation
resolves with the sentinel `null` immediately — without invoking the
Transform Stage or the Render Stage, without emitting any status event,
without touching the lock map, and without raising an error. -/
theorem pipeline_skips_when_locked (env : StageEnv)
    (theme dir : String) (locks : Locks) (p : String)
    (h : locks p = true) :
    (convertNotebookPipeline env theme dir locks p).result = .ok none
    ∧ (convertNotebookPipeline env theme dir locks p).transformRan = false
    ∧ (convertNotebookPipeline env theme dir locks p).renderRan = false
    ∧ (convertNotebookPipeline env theme dir locks p).statuses = []
    ∧ (convertNotebookPipeline env theme dir locks p).locks = locks := by
  simp [convertNotebookPipeline, h]

/-- Witness for C1: a concrete locked path is skipped. -/
theorem pipeline_skips_when_locked_witness :
    (convertNotebookPipeline ⟨"s.mjs", true, true, "te", true, "re"⟩
      "/t/theme.css" "/out" (fun q => q == "/nb.ipynb")
      "/nb.ipynb").result = .ok none
    ∧ (convertNotebookPipeline ⟨"s.mjs", true, true, "te", true, "re"⟩
      "/t/theme.css" "/out" (fun q => q == "/nb.ipynb")
      "/nb.ipynb").transformRan = false
    ∧ (convertNotebookPipeline ⟨"s.mjs", true, true, "te", true, "re"⟩
      "/t/theme.css" "/out" (fun q => q == "/nb.ipynb")
      "/nb.ipynb").renderRan = false
    ∧ (convertNotebookPipeline ⟨"s.mjs", true, true, "te", true, "re"⟩
      "/t/theme.css" "/out" (fun q => q == "/nb.ipynb")
      "/nb.ipynb").statuses = []
    ∧ (convertNotebookPipeline ⟨"s.mjs", true, true, "te", true, "re"⟩
      "/t/theme.css" "/out" (fun q => q == "/nb.ipynb")
      "/nb.ipynb").locks = (fun q => q == "/nb.ipynb") :=
  pipeline_skips_when_locked _ _ _ _ _ rfl

/-- C2: an invocation of `convertNotebookPipeline(p)` that acquires the
lock (the lock was free on entry) clears the lock for `p` on every
termination — resolution, Transform Stage throw, or Render Stage throw —
and a Transform Stage throw prevents the Render Stage from being invoked
for that job.  An invocation that finds the lock held does not touch the
lock map at all (the running invocation it observed still holds the
lock, and by the first conjunct that invocation clears it when it
terminates). -/
theorem pipeline_releases_lock_on_all_exits (env : StageEnv)
    (theme dir : String) (locks : Locks) (p : String) :
    (locks p = false →
      (convertNotebookPipeline env theme dir locks p).locks p = false)
    ∧ ((env.converterScriptExists = false ∨ env.transformCommandOk = false) →
      (convertNotebookPipeline env theme dir locks p).renderRan = false)
    ∧ (locks p = true →
      (convertNotebookPipeline env theme dir locks p).locks = locks) := by
  refine ⟨?_, ?_, ?_⟩
  · intro h
    simp [convertNotebookPipeline, h, setLock, convertNotebookToMarkdown,
      convertMarkdown]
    rcases hs : env.converterScriptExists with _ | _ <;>
      rcases ht : env.transformCommandOk with _ | _ <;>
      rcases hr : env.renderCommandOk with _ | _ <;>
      simp [hs, ht, hr, setLock]
  · intro h
    rcases hl : locks p with _ | _
    · rcases h with h | h <;>
        rcases hs : env.converterScriptExists with _ | _ <;>
        simp_all [convertNotebookPipeline, hl, convertNotebookToMarkdown]
    · simp [convertNotebookPipeline, hl]
  · intro h
    simp [convertNotebookPipeline, h]

/-- Witness for C2: with the lock free and a failing transform command,
the lock ends cleared and the Render Stage was never invoked. -/
theorem pipeline_releases_lock_on_all_exits_witness :
    (convertNotebookPipeline ⟨"s.mjs", true, false, "boom", true, "re"⟩
      "/t/theme.css" "/out" (fun _ => false) "/nb.ipynb").locks
      "/nb.ipynb" = false
    ∧ (convertNotebookPipeline ⟨"s.mjs", true, false, "boom", true, "re"⟩
      "/t/theme.css" "/out" (fun _ => false) "/nb.ipynb").renderRan =
      false :=
  ⟨(pipeline_releases_lock_on_all_exits _ _ _ _ _).1 rfl,
   (pipeline_releases_lock_on_all_exits _ _ _ _ _).2.1 (Or.inr rfl)⟩

/-- C8: `ensureVenv` is idempotent.  If `pyvenv.cfg` exists, environment
creation is skipped; if the `.jupyterlab-installed` marker is absent
(and the creation phase did not throw), installation is (re-)run and the
marker is written exactly when the install command succeeds — on failure
the call throws and the marker stays absent, so the next call (with any
command outcomes) retries the installation; and a second call on a fully
provisioned environment runs no command at all, leaves the filesystem
unchanged, and returns the venv paths. -/
theorem ensureVenv_idempotent (env env2 : VenvEnv) (root p : String)
    (fs : VenvFs) :
    (fs.pyvenvCfg = true →
      VenvCommand.createVenv ∉ (ensureVenv env root p fs).commands)
    ∧ (fs.jupyterInstalled = false →
      (fs.pyvenvCfg = true ∨ env.venvCreateOk = true) →
      (VenvCommand.pipInstallJupyterlab ∈ (ensureVenv env root p fs).commands
       ∧ ((ensureVenv env root p fs).fs.jupyterInstalled = true ↔
           env.pipInstallOk = true)
       ∧ (env.pipInstallOk = false →
           (ensureVenv env root p fs).result = .error env.pipInstallErr
           ∧ VenvCommand.pipInstallJupyterlab ∈
             (ensureVenv env2 root p (ensureVenv env root p fs).fs).commands)))
    ∧ (fs.pyvenvCfg = true → fs.jupyterInstalled = true →
      (ensureVenv env root p fs).commands = []
      ∧ (ensureVenv env root p fs).fs = fs
      ∧ (ensureVenv env root p fs).result =
          .ok (pathJoin root (hashPath p),
            pathJoin root (hashPath p) ++ "/bin/pip")) := by
  refine ⟨?_, ?_, ?_⟩
  · intro h
    rcases hj : fs.jupyterInstalled with _ | _ <;>
      rcases hi : env.pipInstallOk with _ | _ <;>
      simp [ensureVenv, ensureVenvInstallPhase, h, hj, hi]
  · intro hj hcreate
    rcases hc : fs.pyvenvCfg with _ | _ <;>
      rcases hk : env.venvCreateOk with _ | _ <;>
      rcases hi : env.pipInstallOk with _ | _ <;>
      rcases hi2 : env2.pipInstallOk with _ | _ <;>
      simp_all [ensureVenv, ensureVenvInstallPhase]
  · intro hc hj
    simp [ensureVenv, ensureVenvInstallPhase, hc, hj]

/-- Witness for C8: a fully provisioned environment runs no commands; a
missing install marker with a failing pip install leaves the marker
absent and is retried (the install command runs again) on the next
call. -/
theorem ensureVenv_idempotent_witness :
    ((ensureVenv ⟨true, "ce", true, "pe"⟩ "/venvs" "/nb.ipynb"
        ⟨true, true⟩).commands = []
      ∧ (ensureVenv ⟨true, "ce", true, "pe"⟩ "/venvs" "/nb.ipynb"
        ⟨true, true⟩).fs = ⟨true, true⟩)
    ∧ (ensureVenv ⟨true, "ce", false, "pe"⟩ "/venvs" "/nb.ipynb"
        ⟨true, false⟩).result = .error "pe"
    ∧ VenvCommand.pipInstallJupyterlab ∈
      (ensureVenv ⟨true, "ce2", true, "pe2"⟩ "/venvs" "/nb.ipynb"
        (ensureVenv ⟨true, "ce", false, "pe"⟩ "/venvs" "/nb.ipynb"
          ⟨true, false⟩).fs).commands := by
  have h1 := (ensureVenv_idempotent ⟨true, "ce", true, "pe"⟩
    ⟨true, "ce2", true, "pe2"⟩ "/venvs" "/nb.ipynb" ⟨true, true⟩).2.2 rfl rfl
  have h2 := (ensureVenv_idempotent ⟨true, "ce", false, "pe"⟩
    ⟨true, "ce2", true, "pe2"⟩ "/venvs" "/nb.ipynb" ⟨true, false⟩).2.1 rfl
    (Or.inl rfl)
  exact ⟨⟨h1.1, h1.2.1⟩, (h2.2.2 rfl).1, (h2.2.2 rfl).2⟩

/-- Once a `runCommand` promise is settled, `settle` is a no-op. -/
theorem settle_of_settled {s : RCState} {o : RCOutcome}
    (h : s.settled = some o) (o' : RCOutcome) : settle s o' = s := by
  simp [settle, h]

/-- A settled promise stays settled with the same outcome through any
later event-loop callback. -/
theorem runCommandStep_settled_mono (cmd : String)
    (opts : RunCommandOptions) (s : RCState) (e : RCEvent) (o : RCOutcome)
    (h : s.settled = some o) :
    (runCommandStep cmd opts s e).settled = some o := by
  cases e with
  | stdoutData chunk => simp [runCommandStep, h]
  | stderrData chunk => simp [runCommandStep, h]
  | errorEvt m => simp [runCommandStep, settle, h]
  | timeoutFire =>
    simp only [runCommandStep]
    split <;> simp [settle, h]
  | close code =>
    simp only [runCommandStep]
    split <;> simp [settle, h]

/-- One event-loop step keeps `settleCount` in lockstep with
settlement: 1 once settled, 0 while pending. -/
theorem runCommandStep_settleCount (cmd : String)
    (opts : RunCommandOptions) (s : RCState) (e : RCEvent)
    (hs : s.settleCount = if s.settled.isSome then 1 else 0) :
    (runCommandStep cmd opts s e).settleCount =
      if (runCommandStep cmd opts s e).settled.isSome then 1 else 0 := by
  have key : ∀ (s' : RCState),
      (s'.settleCount = if s'.settled.isSome then 1 else 0) →
      ∀ o', (settle s' o').settleCount =
        if (settle s' o').settled.isSome then 1 else 0 := by
    intro s' hs' o'
    unfold settle
    cases h : s'.settled <;> simp_all
  cases e with
  | stdoutData chunk => simpa [runCommandStep] using hs
  | stderrData chunk => simpa [runCommandStep] using hs
  | errorEvt m => exact key s hs _
  | timeoutFire =>
    simp only [runCommandStep]
    split
    · exact key { s with timeoutActive := false } (by simpa using hs) _
    · simpa using hs
  | close code =>
    simp only [runCommandStep]
    split <;> exact key { s with timeoutActive := false } (by simpa using hs) _

/-- `settleCount` is 1 when settled and 0 when pending — settlement
happens exactly once. -/
theorem runCommandRun_settleCount (cmd : String)
    (opts : RunCommandOptions) (es : List RCEvent) :
    (runCommandRun cmd opts es).settleCount =
      if (runCommandRun cmd opts es).settled.isSome then 1 else 0 := by
  suffices h : ∀ (es : List RCEvent) (s : RCState),
      (s.settleCount = if s.settled.isSome then 1 else 0) →
      ((es.foldl (runCommandStep cmd opts) s).settleCount =
        if (es.foldl (runCommandStep cmd opts) s).settled.isSome then 1
        else 0) by
    exact h es (runCommandInit opts) (by simp [runCommandInit])
  intro es
  induction es with
  | nil => intro s hs; simpa using hs
  | cons e rest ih =>
    intro s hs
    exact ih _ (runCommandStep_settleCount cmd opts s e hs)

/-- A settled promise stays settled with the same outcome through any
sequence of later event-loop callbacks. -/
theorem runCommandFold_settled_mono (cmd : String)
    (opts : RunCommandOptions) (more : List RCEvent) :
    ∀ (s : RCState) (o : RCOutcome), s.settled = some o →
      (more.foldl (runCommandStep cmd opts) s).settled = some o := by
  induction more with
  | nil => intro s o h; simpa using h
  | cons e rest ih =>
    intro s o h
    rw [List.foldl_cons]
    exact ih _ o (runCommandStep_settled_mono cmd opts s e o h)

/-- C5: every `runCommand` invocation produces exactly one terminal
outcome.  The settle counter never exceeds 1; once a terminal event has
settled the promise, any later events (including a racing timeout or
close) leave the outcome unchanged; and a close event always yields a
settled promise and cancels the timeout timer, so the other path of the
race can never fire afterwards. -/
theorem runCommand_exactly_one_outcome (cmd : String)
    (opts : RunCommandOptions) (es : List RCEvent) :
    ((runCommandRun cmd opts es).settleCount ≤ 1)
    ∧ (∀ o, (runCommandRun cmd opts es).settled = some o →
        ∀ more, (runCommandRun cmd opts (es ++ more)).settled = some o)
    ∧ (∀ code,
        (runCommandRun cmd opts (es ++ [.close code])).settled.isSome = true
        ∧ (runCommandRun cmd opts
            (es ++ [.close code])).timeoutActive = false) := by
  refine ⟨?_, ?_, ?_⟩
  · rw [runCommandRun_settleCount]
    split <;> omega
  · intro o ho more
    rw [runCommandRun, List.foldl_append]
    exact runCommandFold_settled_mono cmd opts more _ o ho
  · intro code
    rw [runCommandRun, List.foldl_append]
    rw [show ∀ s, List.foldl (runCommandStep cmd opts) s [RCEvent.close code] =
      runCommandStep cmd opts s (.close code) from fun _ => rfl]
    constructor <;>
      simp only [runCommandStep] <;>
      split <;>
      rcases hs : (runCommandRun cmd opts es).settled with _ | o <;>
      rw [runCommandRun] at hs <;>
      simp [settle, hs]

/-- Witness for C5: a successful close settles the promise with
`resolved`, and a timeout racing in afterwards does not change the
outcome. -/
theorem runCommand_exactly_one_outcome_witness :
    (runCommandRun "marp" ⟨some 120000, some "marp"⟩
      [.close (some 0)]).settled = some .resolved
    ∧ (runCommandRun "marp" ⟨some 120000, some "marp"⟩
      ([.close (some 0)] ++ [.timeoutFire])).settled = some .resolved := by
  have h := runCommand_exactly_one_outcome "marp" ⟨some 120000, some "marp"⟩
    [.close (some 0)]
  have h0 : (runCommandRun "marp" ⟨some 120000, some "marp"⟩
      [.close (some 0)]).settled = some .resolved := by decide
  exact ⟨h0, h.2.1 _ h0 [.timeoutFire]⟩

/-- C9: when the child process closes with a non-zero exit code before
any earlier terminal event settled the promise, the invocation rejects
with an error that names the command label (`options.label || command`),
carries the exit code, and appends the most recent captured output —
stderr preferred, stdout as the fallback when stderr is empty. -/
theorem runCommand_nonzero_exit_rejects (cmd : String)
    (opts : RunCommandOptions) (es : List RCEvent) (c : Int)
    (h0 : (runCommandRun cmd opts es).settled = none) (hc : c ≠ 0) :
    (runCommandRun cmd opts (es ++ [.close (some c)])).settled =
      some (.rejectedExit (some c)
        (labelName opts cmd ++ " exited with code " ++ toString c ++
          (if exitDetail (runCommandRun cmd opts es).stderr
              (runCommandRun cmd opts es).stdout = "" then ""
           else ": " ++ jsTrim (exitDetail (runCommandRun cmd opts es).stderr
              (runCommandRun cmd opts es).stdout)))) := by
  rw [runCommandRun, List.foldl_append]
  rw [show ∀ s, List.foldl (runCommandStep cmd opts) s [RCEvent.close (some c)] =
    runCommandStep cmd opts s (.close (some c)) from fun _ => rfl]
  rw [runCommandRun] at h0 ⊢
  simp only [runCommandStep]
  rw [if_neg (by simp [hc])]
  simp [settle, h0, exitMessage, codeText, exitDetail]

set_option maxRecDepth 100000 in
/-- Witness for C9: a failing `pip install` with captured stderr rejects
with the label, the code, and the stderr detail. -/
theorem runCommand_nonzero_exit_rejects_witness :
    (runCommandRun "pip" ⟨some 600000, some "pip install jupyterlab"⟩
      ([.stderrData "no network"] ++ [.close (some 1)])).settled =
      some (.rejectedExit (some 1)
        "pip install jupyterlab exited with code 1: no network") := by
  have h := runCommand_nonzero_exit_rejects "pip"
    ⟨some 600000, some "pip install jupyterlab"⟩ [.stderrData "no network"]
    1 (by decide) (by decide)
  exact h.trans (by decide)

/-- `settle` never changes the timeout-timer flag. -/
theorem settle_timeoutActive (s : RCState) (o' : RCOutcome) :
    (settle s o').timeoutActive = s.timeoutActive := by
  unfold settle
  split <;> rfl

/-- If every already-possible outcome is non-timeout and the newly
attempted one is non-timeout, the settled outcome is non-timeout. -/
theorem settle_no_timeout (s' : RCState) (o' : RCOutcome)
    (hs' : ∀ o, s'.settled = some o → isTimeoutOutcome o = false)
    (ho' : isTimeoutOutcome o' = false) :
    ∀ o, (settle s' o').settled = some o → isTimeoutOutcome o = false := by
  intro o ho
  unfold settle at ho
  split at ho
  · exact hs' o ho
  · simp only [Option.some.injEq] at ho
    rw [← ho]
    exact ho'

/-- With the timeout timer inactive, one event-loop step keeps it
inactive and cannot settle the promise with a timeout rejection. -/
theorem runCommandStep_no_timeout (cmd : String)
    (opts : RunCommandOptions) (s : RCState) (e : RCEvent)
    (h1 : s.timeoutActive = false)
    (h2 : ∀ o, s.settled = some o → isTimeoutOutcome o = false) :
    (runCommandStep cmd opts s e).timeoutActive = false
    ∧ ∀ o, (runCommandStep cmd opts s e).settled = some o →
        isTimeoutOutcome o = false := by
  cases e with
  | stdoutData chunk => exact ⟨by simpa [runCommandStep] using h1,
      by simpa [runCommandStep] using h2⟩
  | stderrData chunk => exact ⟨by simpa [runCommandStep] using h1,
      by simpa [runCommandStep] using h2⟩
  | errorEvt m =>
    refine ⟨?_, ?_⟩
    · show (settle s _).timeoutActive = false
      rw [settle_timeoutActive]; exact h1
    · exact settle_no_timeout s _ h2 rfl
  | timeoutFire =>
    simp only [runCommandStep]
    rw [if_neg (by simp [h1])]
    exact ⟨h1, h2⟩
  | close code =>
    simp only [runCommandStep]
    split
    · refine ⟨?_, ?_⟩
      · rw [settle_timeoutActive]
      · exact settle_no_timeout _ _ (by simpa using h2) rfl
    · refine ⟨?_, ?_⟩
      · rw [settle_timeoutActive]
      · exact settle_no_timeout _ _ (by simpa using h2) rfl

/-- C10: when `options.timeoutMs` is omitted (`none`) or `0`, no timeout
timer is installed — the timer is inactive from the start and stays
inactive — and the invocation can never settle with a timed-out
rejection: it settles only via the child `error` or `close` handler. -/
theorem runCommand_no_timer_no_timeout (cmd : String)
    (opts : RunCommandOptions) (es : List RCEvent)
    (h : opts.timeoutMs = none ∨ opts.timeoutMs = some 0) :
    (runCommandInit opts).timeoutActive = false
    ∧ (runCommandRun cmd opts es).timeoutActive = false
    ∧ ∀ o, (runCommandRun cmd opts es).settled = some o →
        isTimeoutOutcome o = false := by
  have hinit : (runCommandInit opts).timeoutActive = false := by
    rcases h with h | h <;> simp [runCommandInit, timerInstalled, h]
  have key : ∀ (es : List RCEvent) (s : RCState),
      s.timeoutActive = false →
      (∀ o, s.settled = some o → isTimeoutOutcome o = false) →
      (es.foldl (runCommandStep cmd opts) s).timeoutActive = false
      ∧ ∀ o, (es.foldl (runCommandStep cmd opts) s).settled = some o →
          isTimeoutOutcome o = false := by
    intro es
    induction es with
    | nil => intro s h1 h2; exact ⟨h1, h2⟩
    | cons e rest ih =>
      intro s h1 h2
      rw [List.foldl_cons]
      exact ih _ (runCommandStep_no_timeout cmd opts s e h1 h2).1
        (runCommandStep_no_timeout cmd opts s e h1 h2).2
  refine ⟨hinit, ?_, ?_⟩
  · exact (key es (runCommandInit opts) hinit
      (by simp [runCommandInit])).1
  · exact (key es (runCommandInit opts) hinit
      (by simp [runCommandInit])).2

/-- Witness for C10: with `timeoutMs` omitted, a non-zero exit settles
the promise via the close handler with a (non-timeout) exit rejection. -/
theorem runCommand_no_timer_no_timeout_witness :
    (runCommandInit ⟨none, none⟩).timeoutActive = false
    ∧ (runCommandRun "python3" ⟨none, none⟩
        [.close (some 2)]).timeoutActive = false
    ∧ isTimeoutOutcome (.rejectedExit (some 2)
        "python3 exited with code 2") = false := by
  have h := runCommand_no_timer_no_timeout "python3" ⟨none, none⟩
    [.close (some 2)] (Or.inl rfl)
  exact ⟨h.1, h.2.1, h.2.2 _ (by decide)⟩

/-- The empty watch state satisfies the coherence invariant. -/
theorem debounceInv_empty : DebounceInv emptyDebounce := by
  simp [DebounceInv, emptyDebounce]

/-- From the coherence invariant: at most one live timer per path. -/
theorem debounceInv_at_most_one {s : DebounceSystem} (h : DebounceInv s) :
    ∀ t ∈ s.liveTimers, ∀ u ∈ s.liveTimers, t.path = u.path → t = u := by
  obtain ⟨hinj, _, hcoh, _⟩ := h
  intro t ht u hu hp
  have h1 : s.timerMap t.path = some t.id := hcoh t ht
  have h2 : s.timerMap t.path = some u.id := by rw [hp]; exact hcoh u hu
  have : t.id = u.id := by
    rw [h1] at h2
    exact (Option.some.injEq _ _ ▸ h2)
  exact hinj t ht u hu this

/-- Scheduling a conversion preserves the coherence invariant. -/
theorem debounceInv_schedule (d : Nat) (p : String) (now : Nat)
    (s : DebounceSystem) (h : DebounceInv s) :
    DebounceInv (scheduleConversion d p now s) := by
  obtain ⟨hinj, hbound, hcoh, hback⟩ := h
  rcases hmp : s.timerMap p with _ | tid0
  all_goals
    simp only [scheduleConversion, hmp, DebounceInv]
  -- map p = none: no live timer has path p
  case none =>
    have hnop : ∀ t ∈ s.liveTimers, t.path ≠ p := by
      intro t ht hp
      have hc := hcoh t ht
      rw [hp, hmp] at hc
      exact Option.noConfusion hc
    refine ⟨?_, ?_, ?_, ?_⟩
    · intro t ht u hu hid
      rcases List.mem_append.mp ht with ht' | ht' <;>
        rcases List.mem_append.mp hu with hu' | hu'
      · exact hinj t ht' u hu' hid
      · exfalso
        have := hbound t ht'
        simp at hu'
        rw [hu'] at hid
        simp at hid
        omega
      · exfalso
        have := hbound u hu'
        simp at ht'
        rw [ht'] at hid
        simp at hid
        omega
      · simp at ht' hu'
        rw [ht', hu']
    · intro t ht
      rcases List.mem_append.mp ht with ht' | ht'
      · have := hbound t ht'
        omega
      · simp at ht'
        rw [ht']
        exact Nat.lt_succ_self s.nextId
    · intro t ht
      rcases List.mem_append.mp ht with ht' | ht'
      · rw [if_neg (hnop t ht')]
        exact hcoh t ht'
      · simp at ht'
        rw [ht']
        simp
    · intro q tid hq
      by_cases hqp : q = p
      · rw [if_pos hqp] at hq
        injection hq with hq'
        refine ⟨⟨s.nextId, p, now + d⟩, List.mem_append.mpr (Or.inr ?_), ?_, ?_⟩
        · simp
        · rw [hqp]
        · exact hq'
      · rw [if_neg hqp] at hq
        obtain ⟨t, ht, hpath, hid⟩ := hback q tid hq
        exact ⟨t, List.mem_append.mpr (Or.inl ht), hpath, hid⟩
  -- map p = some tid0: the mapped timer is removed, the new one added
  case some =>
    obtain ⟨t0, ht0, ht0p, ht0id⟩ := hback p tid0 hmp
    have hmem : ∀ u, u ∈ s.liveTimers.filter (fun t => t.id ≠ tid0) →
        u ∈ s.liveTimers ∧ u.id ≠ tid0 := by
      intro u hu
      have := List.mem_filter.mp hu
      simpa using this
    have hnop : ∀ u ∈ s.liveTimers.filter (fun t => t.id ≠ tid0),
        u.path ≠ p := by
      intro u hu hp
      obtain ⟨hu1, hu2⟩ := hmem u hu
      have : s.timerMap p = some u.id := by rw [← hp]; exact hcoh u hu1
      rw [hmp] at this
      exact hu2 (Option.some.injEq _ _ ▸ this).symm
    refine ⟨?_, ?_, ?_, ?_⟩
    · intro t ht u hu hid
      rcases List.mem_append.mp ht with ht' | ht' <;>
        rcases List.mem_append.mp hu with hu' | hu'
      · exact hinj t (hmem t ht').1 u (hmem u hu').1 hid
      · exfalso
        have := hbound t (hmem t ht').1
        simp at hu'
        rw [hu'] at hid
        simp at hid
        omega
      · exfalso
        have := hbound u (hmem u hu').1
        simp at ht'
        rw [ht'] at hid
        simp at hid
        omega
      · simp at ht' hu'
        rw [ht', hu']
    · intro t ht
      rcases List.mem_append.mp ht with ht' | ht'
      · have := hbound t (hmem t ht').1
        omega
      · simp at ht'
        rw [ht']
        exact Nat.lt_succ_self s.nextId
    · intro t ht
      rcases List.mem_append.mp ht with ht' | ht'
      · rw [if_neg (hnop t ht')]
        exact hcoh t (hmem t ht').1
      · simp at ht'
        rw [ht']
        simp
    · intro q tid hq
      by_cases hqp : q = p
      · rw [if_pos hqp] at hq
        injection hq with hq'
        refine ⟨⟨s.nextId, p, now + d⟩, List.mem_append.mpr (Or.inr ?_), ?_, ?_⟩
        · simp
        · rw [hqp]
        · exact hq'
      · rw [if_neg hqp] at hq
        obtain ⟨t, ht, hpath, hid⟩ := hback q tid hq
        have htid0 : t.id ≠ tid0 := by
          intro he
          have : t = t0 := hinj t ht t0 ht0 (by rw [he, ht0id])
          rw [this] at hpath
          exact hqp (hpath ▸ ht0p ▸ rfl)
        refine ⟨t, List.mem_append.mpr (Or.inl ?_), hpath, hid⟩
        rw [List.mem_filter]
        simpa using ⟨ht, htid0⟩

/-- Firing a timer (the bookkeeping half of the callback) preserves the
coherence invariant. -/
theorem debounceInv_fireBookkeeping {tid now : Nat} {s : DebounceSystem}
    {t : Timer} {s1 : DebounceSystem} (h : DebounceInv s)
    (hfb : fireBookkeeping tid now s = some (t, s1)) : DebounceInv s1 := by
  obtain ⟨hinj, hbound, hcoh, hback⟩ := h
  unfold fireBookkeeping at hfb
  rcases hf : s.liveTimers.find? (fun u => u.id = tid) with _ | t'
  · rw [hf] at hfb
    exact Option.noConfusion hfb
  · rw [hf] at hfb
    dsimp only at hfb
    have htmem : t' ∈ s.liveTimers := List.mem_of_find?_eq_some hf
    have htid : t'.id = tid := by simpa using List.find?_some hf
    by_cases hdue : t'.fireAt ≤ now
    · rw [if_pos hdue] at hfb
      injection hfb with hfb'
      simp only [Prod.mk.injEq] at hfb'
      obtain ⟨rfl, rfl⟩ := hfb'
      have hmem : ∀ u, u ∈ s.liveTimers.filter (fun v => v.id ≠ tid) →
          u ∈ s.liveTimers ∧ u.id ≠ tid := by
        intro u hu
        have := List.mem_filter.mp hu
        simpa using this
      refine ⟨?_, ?_, ?_, ?_⟩
      · intro a ha b hb hid
        exact hinj a (hmem a ha).1 b (hmem b hb).1 hid
      · intro a ha
        exact hbound a (hmem a ha).1
      · intro a ha
        obtain ⟨ha1, ha2⟩ := hmem a ha
        have hpath : a.path ≠ t'.path := by
          intro he
          have h1 : s.timerMap t'.path = some t'.id := hcoh t' htmem
          have h2 : s.timerMap t'.path = some a.id := by
            rw [← he]; exact hcoh a ha1
          rw [h1] at h2
          injection h2 with h2'
          exact ha2 (by rw [← h2', htid])
        show (if a.path = t'.path then none else s.timerMap a.path) = some a.id
        rw [if_neg hpath]
        exact hcoh a ha1
      · intro q tid2 hq
        dsimp only at hq ⊢
        by_cases hqp : q = t'.path
        · rw [show (if q = t'.path then none else s.timerMap q) = none from
            if_pos hqp] at hq
          exact Option.noConfusion hq
        · rw [show (if q = t'.path then none else s.timerMap q) =
            s.timerMap q from if_neg hqp] at hq
          obtain ⟨a, ha, hpath, hid⟩ := hback q tid2 hq
          have haid : a.id ≠ tid := by
            intro he
            have : a = t' := hinj a ha t' htmem (by rw [he, htid])
            rw [this] at hpath
            exact hqp hpath.symm
          refine ⟨a, ?_, hpath, hid⟩
          rw [List.mem_filter]
          simpa using ⟨ha, haid⟩
    · rw [if_neg hdue] at hfb
      exact Option.noConfusion hfb

/-- Invariance under a state that shares the timer fields. -/
theorem debounceInv_of_fields {s s' : DebounceSystem} (h : DebounceInv s)
    (hl : s'.liveTimers = s.liveTimers) (hm : s'.timerMap = s.timerMap)
    (hn : s'.nextId = s.nextId) : DebounceInv s' := by
  obtain ⟨hinj, hbound, hcoh, hback⟩ := h
  refine ⟨?_, ?_, ?_, ?_⟩
  · rw [hl]; exact hinj
  · rw [hl, hn]; exact hbound
  · rw [hl, hm]; exact hcoh
  · rw [hl, hm]; exact hback

/-- The markdown timer callback preserves the coherence invariant. -/
theorem debounceInv_marpFire (env : StageEnv) (th dir : String)
    (tid now : Nat) (s : DebounceSystem) (h : DebounceInv s) :
    DebounceInv (marpTimerFire env th dir tid now s) := by
  unfold marpTimerFire
  rcases hfb : fireBookkeeping tid now s with _ | ⟨t, s1⟩
  · exact h
  · dsimp only
    have h1 := debounceInv_fireBookkeeping h hfb
    rcases hr : (convertMarkdown env th dir t.path).result with e | v <;>
      dsimp only <;> exact debounceInv_of_fields h1 rfl rfl rfl

/-- The notebook timer callback preserves the coherence invariant. -/
theorem debounceInv_notebookFire (env : StageEnv) (th dir : String)
    (tid now : Nat) (s : DebounceSystem) (locks : Locks)
    (h : DebounceInv s) :
    DebounceInv (notebookTimerFire env th dir tid now s locks).1 := by
  unfold notebookTimerFire
  rcases hfb : fireBookkeeping tid now s with _ | ⟨t, s1⟩
  · exact h
  · dsimp only
    have h1 := debounceInv_fireBookkeeping h hfb
    rcases hr : (convertNotebookPipeline env th dir locks t.path).result
        with e | p
    · dsimp only
      exact debounceInv_of_fields h1 rfl rfl rfl
    · rcases p with _ | v <;> dsimp only <;>
        exact debounceInv_of_fields h1 rfl rfl rfl

/-- Every state the markdown watch subsystem can reach from a coherent
state is coherent. -/
theorem debounceInv_marpRun (env : StageEnv) (th dir : String)
    (ops : List WatchOp) :
    ∀ (s : DebounceSystem), DebounceInv s →
      DebounceInv (marpWatchRun env th dir ops s) := by
  induction ops with
  | nil => intro s h; exact h
  | cons op rest ih =>
    intro s h
    rw [marpWatchRun, List.foldl_cons]
    refine ih _ ?_
    cases op with
    | change p now => exact debounceInv_schedule 600 p now s h
    | fire tid now => exact debounceInv_marpFire env th dir tid now s h

/-- Every state the notebook watch subsystem can reach from a coherent
state is coherent. -/
theorem debounceInv_notebookRun (env : StageEnv) (th dir : String)
    (ops : List WatchOp) :
    ∀ (sl : DebounceSystem × Locks), DebounceInv sl.1 →
      DebounceInv (notebookWatchRun env th dir ops sl).1 := by
  induction ops with
  | nil => intro sl h; exact h
  | cons op rest ih =>
    intro sl h
    rw [notebookWatchRun, List.foldl_cons]
    refine ih _ ?_
    cases op with
    | change p now => exact debounceInv_schedule 800 p now sl.1 h
    | fire tid now =>
      exact debounceInv_notebookFire env th dir tid now sl.1 sl.2 h

/-- Scheduling cancels and replaces: afterwards the only live timer for
the path is the fresh one (with the fresh handle and `now + delay`), and
the previously mapped timer handle is live no more. -/
theorem schedule_replaces (d : Nat) (p : String) (now : Nat)
    (s : DebounceSystem) (h : DebounceInv s) :
    (scheduleConversion d p now s).liveTimers.filter
      (fun t => t.path = p) = [⟨s.nextId, p, now + d⟩]
    ∧ ∀ tid, s.timerMap p = some tid →
        ∀ u ∈ (scheduleConversion d p now s).liveTimers, u.id ≠ tid := by
  obtain ⟨hinj, hbound, hcoh, hback⟩ := h
  rcases hmp : s.timerMap p with _ | tid0
  · have hnop : ∀ t ∈ s.liveTimers, t.path ≠ p := by
      intro t ht hp
      have hc := hcoh t ht
      rw [hp, hmp] at hc
      exact Option.noConfusion hc
    constructor
    · simp only [scheduleConversion, hmp]
      rw [List.filter_append]
      have h1 : s.liveTimers.filter (fun t => t.path = p) = [] :=
        List.filter_eq_nil_iff.mpr (by simpa using hnop)
      rw [h1]
      simp
    · intro tid htid
      exact Option.noConfusion htid
  · obtain ⟨t0, ht0, ht0p, ht0id⟩ := hback p tid0 hmp
    constructor
    · simp only [scheduleConversion, hmp]
      rw [List.filter_append]
      have h1 : (s.liveTimers.filter (fun t => t.id ≠ tid0)).filter
          (fun t => t.path = p) = [] := by
        apply List.filter_eq_nil_iff.mpr
        intro u hu
        obtain ⟨hu1, hu2⟩ : u ∈ s.liveTimers ∧ u.id ≠ tid0 := by
          simpa using List.mem_filter.mp hu
        simp only [decide_eq_true_eq]
        intro hp
        have hc : s.timerMap p = some u.id := by
          rw [← hp]
          exact hcoh u hu1
        rw [hmp] at hc
        injection hc with hc'
        exact hu2 hc'.symm
      rw [h1]
      simp
    · intro tid htid u hu
      injection htid with he
      simp only [scheduleConversion, hmp] at hu
      rcases List.mem_append.mp hu with hu' | hu'
      · obtain ⟨hu1, hu2⟩ : u ∈ s.liveTimers ∧ u.id ≠ tid0 := by
          simpa using List.mem_filter.mp hu'
        rw [← he]
        exact hu2
      · simp at hu'
        rw [hu', ← he]
        have := hbound t0 ht0
        rw [ht0id] at this
        show s.nextId ≠ tid0
        omega

/-- A timer whose delay has not yet elapsed cannot fire: the markdown
timer callback is a no-op before the timer is due (and a cancelled
handle never fires at all, since it is no longer live). -/
theorem marpTimerFire_before_due (env : StageEnv) (th dir : String)
    (tid now : Nat) (s : DebounceSystem)
    (h : ∀ t ∈ s.liveTimers, now < t.fireAt) :
    marpTimerFire env th dir tid now s = s := by
  have hfb : fireBookkeeping tid now s = none := by
    unfold fireBookkeeping
    rcases hf : s.liveTimers.find? (fun t => t.id = tid) with _ | t
    · rw [hf]
    · rw [hf]
      have ht := List.mem_of_find?_eq_some hf
      dsimp only
      rw [if_neg (by simpa using Nat.not_le.mpr (h t ht))]
  unfold marpTimerFire
  rw [hfb]

/-- Firing the single due live timer runs exactly one markdown rebuild
and leaves no live timer. -/
theorem marpTimerFire_single (env : StageEnv) (th dir p : String)
    (i fa now : Nat) (s : DebounceSystem) (hs : SingleTimerShape p i fa s)
    (hnow : fa ≤ now) :
    (marpTimerFire env th dir i now s).rebuilds = s.rebuilds ++ [p]
    ∧ (marpTimerFire env th dir i now s).liveTimers = [] := by
  obtain ⟨hl, hm, hn⟩ := hs
  have hfind : s.liveTimers.find? (fun t => t.id = i) = some ⟨i, p, fa⟩ := by
    rw [hl]
    simp [List.find?]
  have hfb : fireBookkeeping i now s = some (⟨i, p, fa⟩,
      { s with liveTimers := s.liveTimers.filter (fun u => u.id ≠ i),
               timerMap := fun q => if q = p then none else s.timerMap q }) := by
    unfold fireBookkeeping
    rw [hfind]
    dsimp only
    rw [if_pos hnow]
  unfold marpTimerFire
  rw [hfb]
  dsimp only
  rcases hr : (convertMarkdown env th dir p).result with e | v <;>
    refine ⟨rfl, ?_⟩ <;> dsimp only <;> rw [hl] <;> simp

/-- Firing the single due live timer runs exactly one notebook pipeline
rebuild and leaves no live timer. -/
theorem notebookTimerFire_single (env : StageEnv) (th dir p : String)
    (locks : Locks) (i fa now : Nat) (s : DebounceSystem)
    (hs : SingleTimerShape p i fa s) (hnow : fa ≤ now) :
    (notebookTimerFire env th dir i now s locks).1.rebuilds =
      s.rebuilds ++ [p]
    ∧ (notebookTimerFire env th dir i now s locks).1.liveTimers = [] := by
  obtain ⟨hl, hm, hn⟩ := hs
  have hfind : s.liveTimers.find? (fun t => t.id = i) = some ⟨i, p, fa⟩ := by
    rw [hl]
    simp [List.find?]
  have hfb : fireBookkeeping i now s = some (⟨i, p, fa⟩,
      { s with liveTimers := s.liveTimers.filter (fun u => u.id ≠ i),
               timerMap := fun q => if q = p then none else s.timerMap q }) := by
    unfold fireBookkeeping
    rw [hfind]
    dsimp only
    rw [if_pos hnow]
  unfold notebookTimerFire
  rw [hfb]
  dsimp only
  rcases hr : (convertNotebookPipeline env th dir locks p).result with e | op
  · refine ⟨rfl, ?_⟩
    dsimp only
    rw [hl]
    simp
  · rcases op with _ | v <;> refine ⟨rfl, ?_⟩ <;> dsimp only <;> rw [hl] <;>
      simp

/-- One scheduling step on the single-timer burst shape. -/
theorem shape_schedule (d : Nat) (p : String) (now i fa : Nat)
    (s : DebounceSystem) (hs : SingleTimerShape p i fa s) :
    SingleTimerShape p (i + 1) (now + d) (scheduleConversion d p now s) := by
  obtain ⟨hl, hm, hn⟩ := hs
  refine ⟨?_, ?_, ?_⟩
  · simp only [scheduleConversion, hm]
    rw [hl, hn]
    simp
  · simp only [scheduleConversion, hm]
    rw [hn]
    simp
  · simp only [scheduleConversion, hm]
    rw [hn]

/-- Scheduling never touches the rebuild log. -/
theorem schedule_fold_rebuilds (d : Nat) (p : String)
    (times : List Nat) :
    ∀ (s : DebounceSystem),
      (times.foldl (fun st tt => scheduleConversion d p tt st) s).rebuilds =
        s.rebuilds := by
  induction times with
  | nil => intro s; rfl
  | cons r rs ih =>
    intro s
    rw [List.foldl_cons, ih]
    rfl

/-- Folding a burst of change events over the single-timer shape keeps
the shape: each event cancels and replaces the one live timer. -/
theorem shape_chain (d : Nat) (p : String) (rest : List Nat) :
    ∀ (i t0 : Nat) (s : DebounceSystem),
      SingleTimerShape p i (t0 + d) s →
      SingleTimerShape p (i + rest.length) (rest.getLastD t0 + d)
        (rest.foldl (fun st tt => scheduleConversion d p tt st) s) := by
  induction rest with
  | nil => intro i t0 s hs; simpa using hs
  | cons r rs ih =>
    intro i t0 s hs
    rw [List.foldl_cons, List.getLastD_cons]
    have h2 := ih (i + 1) r _ (shape_schedule d p r i (t0 + d) s hs)
    rw [show i + (r :: rs).length = i + 1 + rs.length by
      simp only [List.length_cons]; omega]
    exact h2

/-- Change events reach the scheduler as plain schedule calls. -/
theorem marpRun_changes (env : StageEnv) (th dir : String)
    (times : List Nat) (p : String) (s : DebounceSystem) :
    marpWatchRun env th dir (times.map (fun tt => .change p tt)) s =
      times.foldl (fun st tt => scheduleConversion 600 p tt st) s := by
  rw [marpWatchRun, List.foldl_map]
  rfl

/-- Change events reach the notebook scheduler as plain schedule calls,
leaving the conversion locks untouched. -/
theorem notebookRun_changes (env : StageEnv) (th dir : String)
    (times : List Nat) (p : String) :
    ∀ (s : DebounceSystem) (locks : Locks),
      notebookWatchRun env th dir (times.map (fun tt => .change p tt))
        (s, locks) =
      (times.foldl (fun st tt => scheduleConversion 800 p tt st) s,
        locks) := by
  induction times with
  | nil => intro s locks; rfl
  | cons r rs ih =>
    intro s locks
    rw [notebookWatchRun, List.map_cons, List.foldl_cons, List.foldl_cons]
    exact ih _ locks

set_option linter.unusedVariables false in
/-- C6: per-path debounce coalescing.  (i)/(ii) In every reachable state
of the markdown and notebook watch subsystems there is at most one live
timer per path.  (iii) A new change event cancels the pending timer for
its path and replaces it with a fresh one due after the fixed delay —
600 ms for watched Markdown paths, 800 ms for watched notebook paths —
and the previously mapped timer handle is no longer live.  (iv) A live
timer never fires before its delay has elapsed (and a cancelled handle
never fires at all), which is why a burst with gaps shorter than the
delay — the `hb6` window condition — contains no interleaved firing.
(v)/(vi) A burst of repeated change events on one watched path followed
by the expiry of the last scheduled timer performs exactly one rebuild. -/
theorem debounce_cancel_replace_coalesce (env : StageEnv)
    (th dir : String) (locks : Locks) (ops : List WatchOp) (p : String)
    (now : Nat) (s : DebounceSystem) (t0 : Nat) (times : List Nat)
    (hinv : DebounceInv s)
    (hb6 : List.Chain' (fun a b => a < b ∧ b < a + 600) (t0 :: times)) :
    (∀ t ∈ (marpWatchRun env th dir ops emptyDebounce).liveTimers,
      ∀ u ∈ (marpWatchRun env th dir ops emptyDebounce).liveTimers,
        t.path = u.path → t = u)
    ∧ (∀ t ∈ (notebookWatchRun env th dir ops
          (emptyDebounce, locks)).1.liveTimers,
      ∀ u ∈ (notebookWatchRun env th dir ops
          (emptyDebounce, locks)).1.liveTimers,
        t.path = u.path → t = u)
    ∧ (scheduleMarpConversion p now s).liveTimers.filter
        (fun t => t.path = p) = [⟨s.nextId, p, now + 600⟩]
    ∧ (scheduleNotebookConversion p now s).liveTimers.filter
        (fun t => t.path = p) = [⟨s.nextId, p, now + 800⟩]
    ∧ (∀ tid, s.timerMap p = some tid →
        ∀ u ∈ (scheduleMarpConversion p now s).liveTimers, u.id ≠ tid)
    ∧ (∀ tid nw (s' : DebounceSystem),
        (∀ t ∈ s'.liveTimers, nw < t.fireAt) →
        marpTimerFire env th dir tid nw s' = s')
    ∧ (marpWatchRun env th dir
        ((t0 :: times).map (fun tt => WatchOp.change p tt))
        emptyDebounce).rebuilds = []
    ∧ (marpWatchRun env th dir
        ((t0 :: times).map (fun tt => WatchOp.change p tt) ++
          [WatchOp.fire times.length (times.getLastD t0 + 600)])
        emptyDebounce).rebuilds = [p]
    ∧ (notebookWatchRun env th dir
        ((t0 :: times).map (fun tt => WatchOp.change p tt))
        (emptyDebounce, locks)).1.rebuilds = []
    ∧ (notebookWatchRun env th dir
        ((t0 :: times).map (fun tt => WatchOp.change p tt) ++
          [WatchOp.fire times.length (times.getLastD t0 + 800)])
        (emptyDebounce, locks)).1.rebuilds = [p] := by
  have hx6 : marpWatchRun env th dir
      ((t0 :: times).map (fun tt => WatchOp.change p tt)) emptyDebounce =
      (t0 :: times).foldl (fun st tt => scheduleConversion 600 p tt st)
        emptyDebounce :=
    marpRun_changes env th dir (t0 :: times) p emptyDebounce
  have hx8 : notebookWatchRun env th dir
      ((t0 :: times).map (fun tt => WatchOp.change p tt))
      (emptyDebounce, locks) =
      ((t0 :: times).foldl (fun st tt => scheduleConversion 800 p tt st)
        emptyDebounce, locks) :=
    notebookRun_changes env th dir (t0 :: times) p emptyDebounce locks
  have hshape6 : SingleTimerShape p times.length
      (times.getLastD t0 + 600)
      ((t0 :: times).foldl (fun st tt => scheduleConversion 600 p tt st)
        emptyDebounce) := by
    rw [List.foldl_cons]
    have h0 : SingleTimerShape p 0 (t0 + 600)
        (scheduleConversion 600 p t0 emptyDebounce) :=
      ⟨rfl, by simp [scheduleConversion, emptyDebounce], rfl⟩
    have h1 := shape_chain 600 p times 0 t0 _ h0
    simpa using h1
  have hshape8 : SingleTimerShape p times.length
      (times.getLastD t0 + 800)
      ((t0 :: times).foldl (fun st tt => scheduleConversion 800 p tt st)
        emptyDebounce) := by
    rw [List.foldl_cons]
    have h0 : SingleTimerShape p 0 (t0 + 800)
        (scheduleConversion 800 p t0 emptyDebounce) :=
      ⟨rfl, by simp [scheduleConversion, emptyDebounce], rfl⟩
    have h1 := shape_chain 800 p times 0 t0 _ h0
    simpa using h1
  have hreb6 : ((t0 :: times).foldl
      (fun st tt => scheduleConversion 600 p tt st)
      emptyDebounce).rebuilds = [] := by
    rw [schedule_fold_rebuilds]
    rfl
  have hreb8 : ((t0 :: times).foldl
      (fun st tt => scheduleConversion 800 p tt st)
      emptyDebounce).rebuilds = [] := by
    rw [schedule_fold_rebuilds]
    rfl
  refine ⟨?_, ?_, ?_, ?_, ?_, ?_, ?_, ?_, ?_, ?_⟩
  · exact debounceInv_at_most_one
      (debounceInv_marpRun env th dir ops emptyDebounce debounceInv_empty)
  · exact debounceInv_at_most_one
      (debounceInv_notebookRun env th dir ops (emptyDebounce, locks)
        debounceInv_empty)
  · exact (schedule_replaces 600 p now s hinv).1
  · exact (schedule_replaces 800 p now s hinv).1
  · exact (schedule_replaces 600 p now s hinv).2
  · exact fun tid nw s' h => marpTimerFire_before_due env th dir tid nw s' h
  · rw [hx6, hreb6]
  · have hstep : ∀ (y : DebounceSystem),
        marpWatchRun env th dir
          [WatchOp.fire times.length (times.getLastD t0 + 600)] y =
        marpTimerFire env th dir times.length
          (times.getLastD t0 + 600) y := fun y => rfl
    rw [show marpWatchRun env th dir
        ((t0 :: times).map (fun tt => WatchOp.change p tt) ++
          [WatchOp.fire times.length (times.getLastD t0 + 600)])
        emptyDebounce =
      marpWatchRun env th dir
        [WatchOp.fire times.length (times.getLastD t0 + 600)]
        (marpWatchRun env th dir
          ((t0 :: times).map (fun tt => WatchOp.change p tt))
          emptyDebounce) by
        rw [marpWatchRun, marpWatchRun, marpWatchRun, List.foldl_append]]
    rw [hstep, hx6]
    have hsingle := marpTimerFire_single env th dir p times.length
      (times.getLastD t0 + 600) (times.getLastD t0 + 600) _ hshape6 le_rfl
    rw [hsingle.1, hreb6]
    rfl
  · rw [hx8]
    exact hreb8
  · have hstep : ∀ (y : DebounceSystem × Locks),
        notebookWatchRun env th dir
          [WatchOp.fire times.length (times.getLastD t0 + 800)] y =
        notebookTimerFire env th dir times.length
          (times.getLastD t0 + 800) y.1 y.2 := fun y => rfl
    rw [show notebookWatchRun env th dir
        ((t0 :: times).map (fun tt => WatchOp.change p tt) ++
          [WatchOp.fire times.length (times.getLastD t0 + 800)])
        (emptyDebounce, locks) =
      notebookWatchRun env th dir
        [WatchOp.fire times.length (times.getLastD t0 + 800)]
        (notebookWatchRun env th dir
          ((t0 :: times).map (fun tt => WatchOp.change p tt))
          (emptyDebounce, locks)) by
        rw [notebookWatchRun, notebookWatchRun, notebookWatchRun,
          List.foldl_append]]
    rw [hstep, hx8]
    have hsingle := notebookTimerFire_single env th dir p locks
      times.length (times.getLastD t0 + 800) (times.getLastD t0 + 800) _
      hshape8 le_rfl
    rw [hsingle.1, hreb8]
    rfl

/-- Witness for C6: a two-event burst (at 0 ms and 100 ms) on one
markdown path yields no rebuild until the surviving timer fires at
700 ms, and then exactly one; the schedule replaces the timer with one
due 600 ms later. -/
theorem debounce_cancel_replace_coalesce_witness :
    (scheduleMarpConversion "s.md" 0 emptyDebounce).liveTimers.filter
      (fun t => t.path = "s.md") = [⟨emptyDebounce.nextId, "s.md", 0 + 600⟩]
    ∧ (marpWatchRun ⟨"s", true, true, "te", true, "re"⟩ "t" "/o"
        (([0, 100] : List Nat).map (fun tt => WatchOp.change "s.md" tt))
        emptyDebounce).rebuilds = []
    ∧ (marpWatchRun ⟨"s", true, true, "te", true, "re"⟩ "t" "/o"
        (([0, 100] : List Nat).map (fun tt => WatchOp.change "s.md" tt) ++
          [WatchOp.fire ([100] : List Nat).length
            (([100] : List Nat).getLastD 0 + 600)])
        emptyDebounce).rebuilds = ["s.md"] := by
  have h := debounce_cancel_replace_coalesce
    ⟨"s", true, true, "te", true, "re"⟩ "t" "/o" (fun _ => false) []
    "s.md" 0 emptyDebounce 0 [100] debounceInv_empty
    (List.chain'_cons.mpr ⟨⟨by omega, by omega⟩, List.chain'_singleton _⟩)
  exact ⟨h.2.2.1, h.2.2.2.2.2.2.1, h.2.2.2.2.2.2.2.1⟩

/-- Scheduling always adds the fresh timer to the live set. -/
theorem schedule_adds_new (d : Nat) (p : String) (now : Nat)
    (s : DebounceSystem) :
    (⟨s.nextId, p, now + d⟩ : Timer) ∈
      (scheduleConversion d p now s).liveTimers := by
  simp only [scheduleConversion]
  rcases s.timerMap p with _ | tid <;>
    exact List.mem_append.mpr (Or.inr (by simp))

/-- C4 counterexample: a watch-triggered markdown rebuild that fails is
NOT reported via the Status Channel as an error event.  At this concrete
input the render command fails, the callback logs the failure via
`console.error` ("Marp conversion failed"), yet every status event the
callback emitted is non-error (only the "Rendering Marp PDF..." info
event) — refuting the claim that the failure is reported via the Status
Channel as an error event.  (The second half of the claim holds: the
watcher is still registered.) -/
theorem watcher_failure_no_error_status_counterexample :
    (marpTimerFire failingRenderEnv "t" "/o" 0 600
        sampleWatchState).statuses.all
      (fun e => !(e.level == StatusLevel.error)) = true
    ∧ (marpTimerFire failingRenderEnv "t" "/o" 0 600
        sampleWatchState).statuses =
      [⟨"Rendering Marp PDF...", .info⟩]
    ∧ (marpTimerFire failingRenderEnv "t" "/o" 0 600
        sampleWatchState).consoleErrors =
      ["Marp conversion failed: marp exited with code 1"]
    ∧ (marpTimerFire failingRenderEnv "t" "/o" 0 600
        sampleWatchState).watchers = ["s.md"] := by
  refine ⟨?_, ?_, ?_, ?_⟩ <;> decide

/-- C4 (amended): when a rebuild triggered by a filesystem watch fails,
the failure is caught inside the debounce-timer callback and logged via
`console.error` — no error-level Status Channel event is emitted on this
path — and the watch remains active: the watcher set is untouched and a
subsequent change event schedules a fresh rebuild timer.  The first
conjunct covers a watched Markdown path (failing render command), the
second a watched notebook path (failing transform command). -/
theorem watcher_failure_logged_watch_stays (env : StageEnv)
    (th dir : String) (tid now now2 : Nat) (s : DebounceSystem)
    (t : Timer) (locks : Locks)
    (hfind : s.liveTimers.find? (fun u => u.id = tid) = some t)
    (hdue : t.fireAt ≤ now) :
    (env.renderCommandOk = false →
      (marpTimerFire env th dir tid now s).watchers = s.watchers
      ∧ (marpTimerFire env th dir tid now s).statuses =
          s.statuses ++ [⟨"Rendering Marp PDF...", .info⟩]
      ∧ (marpTimerFire env th dir tid now s).consoleErrors =
          s.consoleErrors ++
            ["Marp conversion failed: " ++ env.renderErrorMsg]
      ∧ ∃ u ∈ (scheduleMarpConversion t.path now2
            (marpTimerFire env th dir tid now s)).liveTimers,
          u.path = t.path ∧ u.fireAt = now2 + 600)
    ∧ (env.converterScriptExists = true → env.transformCommandOk = false →
        locks t.path = false →
      (notebookTimerFire env th dir tid now s locks).1.watchers =
        s.watchers
      ∧ (notebookTimerFire env th dir tid now s locks).1.statuses =
          s.statuses ++ [⟨"Starting notebook → PDF pipeline...", .info⟩,
            ⟨"Converting notebook to slides markdown...", .info⟩]
      ∧ (notebookTimerFire env th dir tid now s locks).1.consoleErrors =
          s.consoleErrors ++
            ["Notebook conversion failed: " ++ env.transformErrorMsg]) := by
  have hfb : fireBookkeeping tid now s = some (t,
      { s with liveTimers := s.liveTimers.filter (fun u => u.id ≠ tid),
               timerMap := fun q => if q = t.path then none
                 else s.timerMap q }) := by
    unfold fireBookkeeping
    rw [hfind]
    dsimp only
    rw [if_pos hdue]
  constructor
  · intro hren
    have hr : convertMarkdown env th dir t.path =
        { result := .error env.renderErrorMsg,
          statuses := [⟨"Rendering Marp PDF...", .info⟩],
          outputPath := pdfOutputPath dir t.path,
          marpArgs := ["--pdf", "--allow-local-files", "--theme", th,
            "--browser-timeout", "60", "-o", pdfOutputPath dir t.path,
            t.path],
          commandRan := true } := by
      simp [convertMarkdown, hren]
    unfold marpTimerFire
    rw [hfb]
    dsimp only
    rw [hr]
    dsimp only
    refine ⟨rfl, rfl, rfl, ?_⟩
    refine ⟨⟨_, t.path, now2 + 600⟩, schedule_adds_new 600 t.path now2 _,
      rfl, rfl⟩
  · intro hscript htrans hlock
    have hout : convertNotebookPipeline env th dir locks t.path =
        { result := .error env.transformErrorMsg,
          locks := setLock (setLock locks t.path true) t.path false,
          statuses := [⟨"Starting notebook → PDF pipeline...", .info⟩,
            ⟨"Converting notebook to slides markdown...", .info⟩],
          transformRan := true, renderRan := false } := by
      simp [convertNotebookPipeline, hlock, convertNotebookToMarkdown,
        hscript, htrans]
    unfold notebookTimerFire
    rw [hfb]
    dsimp only
    rw [hout]
    dsimp only
    exact ⟨rfl, rfl, rfl⟩

/-- Witness for C4 (amended): at the concrete failing-render input, the
watcher survives, the console log records the failure, and a later
change event schedules a new 600 ms timer for the path. -/
theorem watcher_failure_logged_watch_stays_witness :
    (marpTimerFire failingRenderEnv "t" "/o" 0 600
        sampleWatchState).watchers = sampleWatchState.watchers
    ∧ (marpTimerFire failingRenderEnv "t" "/o" 0 600
        sampleWatchState).consoleErrors =
      sampleWatchState.consoleErrors ++
        ["Marp conversion failed: " ++ failingRenderEnv.renderErrorMsg]
    ∧ ∃ u ∈ (scheduleMarpConversion
          (⟨0, "s.md", 600⟩ : Timer).path 950
          (marpTimerFire failingRenderEnv "t" "/o" 0 600
            sampleWatchState)).liveTimers,
        u.path = (⟨0, "s.md", 600⟩ : Timer).path ∧ u.fireAt = 950 + 600 := by
  have h := (watcher_failure_logged_watch_stays failingRenderEnv "t" "/o"
    0 600 950 sampleWatchState ⟨0, "s.md", 600⟩ (fun _ => false)
    (by decide) (by decide)).1 rfl
  exact ⟨h.1, h.2.2.1, h.2.2.2⟩

end SlideLab
